import Mathlib

/-!
Formal model of the pair-trading agent's statistical signal engine
(`src/pair_analysis.ts`), its position ledger (`src/executor.ts`) and the
risk-admission gate of the orchestrator (`index.ts`).

Modelling conventions:
* JavaScript floating-point numbers are idealised as real numbers `ℝ` in the
  analyzer (which uses `Math.sqrt` / `Math.log`) and as rationals `ℚ` in the
  executor (which is purely rational arithmetic), so every executor definition
  is computable.
* Division by zero produces `NaN` / `±Infinity` in JavaScript.  Where a spec
  claim depends on that behaviour (the z-score of a constant spread) the
  result is modelled explicitly by the type `JsNum` and the division `jsDiv`.
  Elsewhere every division in the source is guarded by the source itself, so
  total field division is faithful.
* Fallible functions (`analyzePair` throws on bad lengths) return `Option`.
-/

namespace PairAgent

/-- A JavaScript number that may be `NaN` or `±Infinity`: used for the fields
(`zScore`, `halfLife`) that the source can set to non-finite values. -/
inductive JsNum where
  | num (x : ℝ)
  | posInf
  | negInf
  | nan

/-- Trade signal, `'long' | 'short' | 'neutral'` in the source. -/
inductive Signal where
  | long
  | short
  | neutral
deriving DecidableEq

noncomputable section
open scoped Classical

/-- JavaScript division `a / b`: ordinary division for `b ≠ 0`, and the IEEE
rules `0/0 = NaN`, `a/0 = ±Infinity` (sign of `a`) for `b = 0`. -/
def jsDiv (a b : ℝ) : JsNum :=
  if b = 0 then
    if a = 0 then JsNum.nan
    else if 0 < a then JsNum.posInf
    else JsNum.negInf
  else JsNum.num (a / b)

/-- `calculateReturns` (pair_analysis.ts:30): period-over-period returns
`(p[i] - p[i-1]) / p[i-1]` for `i = 1 .. n-1`. -/
def calculateReturns : List ℝ → List ℝ
  | [] => []
  | [_] => []
  | p0 :: p1 :: rest => (p1 - p0) / p0 :: calculateReturns (p1 :: rest)

/-- `mean(x)` of mathjs: arithmetic mean `sum / length`. -/
def listMean (xs : List ℝ) : ℝ := xs.sum / xs.length

/-- Sum of squared deviations from the mean: the quantity the source
accumulates in its loops as `denomX` / `denomY` / `varianceA` /
`denominator`. -/
def devSq (xs : List ℝ) : ℝ := (xs.map fun v => (v - listMean xs) ^ 2).sum

/-- Cross sum of deviation products, accumulated in the source loops as
`numerator` / `covariance` (the loops run over paired indices, here a zip). -/
def corrNumerator (x y : List ℝ) : ℝ :=
  ((x.zip y).map fun p => (p.1 - listMean x) * (p.2 - listMean y)).sum

/-- `std(x, 'unbiased')` of mathjs: `sqrt(Σ (x_i - mean)^2 / (n - 1))`. -/
def stdUnbiased (xs : List ℝ) : ℝ :=
  Real.sqrt (devSq xs / ((xs.length : ℝ) - 1))

/-- Population covariance of two series: deviation-product sum divided by the
length (the textbook quantity the spec's "covariance" denotes). -/
def populationCovariance (x y : List ℝ) : ℝ := corrNumerator x y / x.length

/-- Population variance of a series (the spec's "variance"). -/
def populationVariance (xs : List ℝ) : ℝ := devSq xs / xs.length

/-- `correlation` (pair_analysis.ts:45).  The source throws on mismatched or
empty inputs (first guard, modelled as the junk value 0 — every use below is
under hypotheses that exclude it), returns 0 when either series has zero
deviation sum, else the Pearson quotient. -/
def correlation (x y : List ℝ) : ℝ :=
  if x.length ≠ y.length ∨ x.length = 0 then 0
  else if devSq x = 0 ∨ devSq y = 0 then 0
  else corrNumerator x y / Real.sqrt (devSq x * devSq y)

/-- `calculateBeta` (pair_analysis.ts:80).  Note the source divides the
covariance of the two return series by `varianceA`, the squared-deviation sum
of the returns of the FIRST argument (and its zero guard is on that same
quantity). -/
def calculateBeta (pricesA pricesB : List ℝ) : ℝ :=
  if pricesA.length ≠ pricesB.length ∨ pricesA.length = 0 then 0
  else
    let returnsA := calculateReturns pricesA
    let returnsB := calculateReturns pricesB
    if devSq returnsA = 0 then 0
    else corrNumerator returnsA returnsB / devSq returnsA

/-- Modelled from the spec: "Hedge ratio (beta): slope of an ordinary
least-squares regression of returnsA on returnsB (covariance/variance of B's
returns); 0 if B's return variance is zero."  This is the SPEC's formula, kept
separate so it can be compared with the source's `calculateBeta`. -/
def betaPerSpec (pricesA pricesB : List ℝ) : ℝ :=
  let returnsA := calculateReturns pricesA
  let returnsB := calculateReturns pricesB
  if populationVariance returnsB = 0 then 0
  else populationCovariance returnsA returnsB / populationVariance returnsB

/-- `calculateSpread` (pair_analysis.ts:116): `priceA[i] - beta * priceB[i]`. -/
def calculateSpread (pricesA pricesB : List ℝ) (beta : ℝ) : List ℝ :=
  (pricesA.zip pricesB).map fun p => p.1 - beta * p.2

/-- The spread series `analyzePair` derives from a pair of price series. -/
def spreadSeries (pricesA pricesB : List ℝ) : List ℝ :=
  calculateSpread pricesA pricesB (calculateBeta pricesA pricesB)

/-- `calculateHalfLife` (pair_analysis.ts:130).  `Infinity` is `JsNum.posInf`.
The two extra branches on `1 + rho` spell out what the source's
`isFinite`-sanity check does when `Math.log(1 + rho)` is `NaN` (negative
argument) or `-Infinity` (zero argument). -/
def calculateHalfLife (spread : List ℝ) : JsNum :=
  if spread.length < 3 then JsNum.posInf
  else
    let laggedSpread := spread.dropLast
    let deltaSpread := ((spread.drop 1).zip spread).map fun p => p.1 - p.2
    let numerator := corrNumerator laggedSpread deltaSpread
    let denominator := devSq laggedSpread
    if denominator = 0 then JsNum.posInf
    else
      let rho := numerator / denominator
      if 0 ≤ rho then JsNum.posInf
      else if 1 + rho < 0 then JsNum.posInf
      else if 1 + rho = 0 then JsNum.num 0
      else
        let halfLife := -(Real.log 2) / Real.log (1 + rho)
        if halfLife < 0 ∨ 1000 < halfLife then JsNum.posInf
        else JsNum.num halfLife

/-- Lagged spread `spread.slice(0, -1)` of the ADF regression. -/
def adfLagged (spread : List ℝ) : List ℝ := spread.dropLast

/-- Current spread `spread.slice(1)` of the ADF regression. -/
def adfCurrent (spread : List ℝ) : List ℝ := spread.drop 1

/-- The ADF regression numerator (pair_analysis.ts:186-194). -/
def adfNumerator (spread : List ℝ) : ℝ :=
  corrNumerator (adfLagged spread) (adfCurrent spread)

/-- The ADF regression denominator (squared deviations of the lagged spread). -/
def adfDenominator (spread : List ℝ) : ℝ := devSq (adfLagged spread)

/-- The fitted slope `rho` of the ADF regression. -/
def adfRho (spread : List ℝ) : ℝ := adfNumerator spread / adfDenominator spread

/-- The fitted intercept `alpha = meanCurrent - rho * meanLagged`. -/
def adfAlpha (spread : List ℝ) : ℝ :=
  listMean (adfCurrent spread) - adfRho spread * listMean (adfLagged spread)

/-- Regression residuals `current[i] - (alpha + rho * lagged[i])`. -/
def adfResiduals (spread : List ℝ) : List ℝ :=
  ((adfCurrent spread).zip (adfLagged spread)).map fun p =>
    p.1 - (adfAlpha spread + adfRho spread * p.2)

/-- `residualStd`: unbiased standard deviation of the residuals. -/
def adfResidualStd (spread : List ℝ) : ℝ := stdUnbiased (adfResiduals spread)

/-- The pseudo t-statistic `(rho - 1) / (residualStd / sqrt(denominator))`. -/
def adfTStat (spread : List ℝ) : ℝ :=
  (adfRho spread - 1) / (adfResidualStd spread / Real.sqrt (adfDenominator spread))

/-- The fixed breakpoint table mapping the t-statistic to an approximate
p-value (pair_analysis.ts:222-230). -/
def pValueFromTStat (t : ℝ) : ℝ :=
  if t < -3.43 then 0.01
  else if t < -2.86 then 0.05
  else if t < -2.57 then 0.10
  else if t < -2.0 then 0.20
  else if t < -1.5 then 0.40
  else if t < -1.0 then 0.60
  else if t < -0.5 then 0.75
  else 0.90

/-- `adfTest` (pair_analysis.ts:175): p-value 1.0 for short series, degenerate
regressions and zero residual deviation, else the breakpoint table applied to
the t-statistic. -/
def adfTest (spread : List ℝ) : ℝ :=
  if spread.length < 10 then 1
  else if adfDenominator spread = 0 then 1
  else if adfResidualStd spread = 0 then 1
  else pValueFromTStat (adfTStat spread)

/-- `testCointegration` (pair_analysis.ts:246): ADF test on the spread. -/
def testCointegration (pricesA pricesB : List ℝ) (beta : ℝ) : ℝ :=
  adfTest (calculateSpread pricesA pricesB beta)

/-- The cointegration verdict `pValue < 0.05` (pair_analysis.ts:338). -/
def isCointegratedOf (pValue : ℝ) : Prop := pValue < 0.05

/-- `calculateSharpe` (pair_analysis.ts:263), annualised by `sqrt 8760`.
(For a length-2 spread the JS unbiased std of the single return is `NaN` and
the source then returns `NaN`; the idealisation returns 0 through the zero
guard.  No claim depends on this field.) -/
def calculateSharpe (spread : List ℝ) : ℝ :=
  if spread.length < 2 then 0
  else
    let spreadReturns := calculateReturns spread
    let avgReturn := listMean spreadReturns
    let stdReturn := stdUnbiased spreadReturns
    if stdReturn = 0 then 0
    else avgReturn / stdReturn * Real.sqrt 8760

/-- `calculateVolatility` (pair_analysis.ts:283). -/
def calculateVolatility (spread : List ℝ) : ℝ :=
  if spread.length < 2 then 0
  else stdUnbiased (calculateReturns spread) * Real.sqrt 8760 * 100

/-- The directional signal derived from the z-score (pair_analysis.ts:343-348)
with JavaScript comparison semantics: `NaN > 2` and `NaN < -2` are both false,
`Infinity > 2` is true. -/
def signalOfZ (z : JsNum) : Signal :=
  match z with
  | JsNum.num x => if 2 < x then Signal.short else if x < -2 then Signal.long else Signal.neutral
  | JsNum.posInf => Signal.short
  | JsNum.negInf => Signal.long
  | JsNum.nan => Signal.neutral

/-- `AnalysisResult` (pair_analysis.ts:9). -/
structure AnalysisResult where
  corr : ℝ
  beta : ℝ
  zScore : JsNum
  mean : ℝ
  std : ℝ
  spread : ℝ
  signalType : Signal
  halfLife : JsNum
  cointegrationPValue : ℝ
  isCointegrated : Prop
  sharpe : ℝ
  volatility : ℝ

/-- `analyzePair` (pair_analysis.ts:302).  The two length validations that
throw in the source yield `none`. -/
def analyzePair (pricesA pricesB : List ℝ) : Option AnalysisResult :=
  if pricesA.length ≠ pricesB.length then none
  else if pricesA.length < 2 then none
  else
    let returnsA := calculateReturns pricesA
    let returnsB := calculateReturns pricesB
    let corr := correlation returnsA returnsB
    let beta := calculateBeta pricesA pricesB
    let spreadArray := calculateSpread pricesA pricesB beta
    let spreadMean := listMean spreadArray
    let spreadStd := stdUnbiased spreadArray
    let currentSpread := spreadArray.getLastD 0
    let zScore := jsDiv (currentSpread - spreadMean) spreadStd
    let cointegrationPValue := testCointegration pricesA pricesB beta
    some
      { corr := corr
        beta := beta
        zScore := zScore
        mean := spreadMean
        std := spreadStd
        spread := currentSpread
        signalType := signalOfZ zScore
        halfLife := calculateHalfLife spreadArray
        cointegrationPValue := cointegrationPValue
        isCointegrated := isCointegratedOf cointegrationPValue
        sharpe := calculateSharpe spreadArray
        volatility := calculateVolatility spreadArray }

end

/-! ## Position ledger (`src/executor.ts`) and risk gate (orchestrator)

The executor works on the in-memory `tradeHistory` list.  Every mutation is
modelled as a pure function from the old list (or record) to the new one.
Database calls are represented by a boolean `dbOk` parameter (`true` = the
awaited call succeeded, `false` = it threw); where the source catches the
error and carries on, the parameter is ignored — exactly the source's
behaviour.  Log strings keep the source's wording minus the interpolated
numeric values. -/

/-- Position status `'open' | 'closed'` (`opened` because `open` is reserved). -/
inductive TradeStatus where
  | opened
  | closed
deriving DecidableEq

/-- Trade action `'long' | 'short' | 'close'`. -/
inductive TradeAction where
  | long
  | short
  | close
deriving DecidableEq

/-- `TradeRecord` (executor.ts:64), rational-valued. -/
structure TradeRecord where
  id : Option Nat := none
  timestamp : ℚ := 0
  pair : String := ""
  symbolA : String := ""
  symbolB : String := ""
  action : TradeAction := TradeAction.long
  zScore : ℚ := 0
  correlation : ℚ := 0
  spread : ℚ := 0
  beta : ℚ := 0
  reason : String := ""
  priceA : Option ℚ := none
  priceB : Option ℚ := none
  longPrice : Option ℚ := none
  shortPrice : Option ℚ := none
  longAsset : Option String := none
  shortAsset : Option String := none
  upnlPct : Option ℚ := none
  entryPriceA : Option ℚ := none
  entryPriceB : Option ℚ := none
  volatility : Option ℚ := none
  timeframe : Option String := none
  engine : Option String := none
  remarks : Option String := none
  status : Option TradeStatus := none
  closeTimestamp : Option ℚ := none
  closeReason : Option String := none
  closePnL : Option ℚ := none
deriving DecidableEq

/-- The fields of an `AnalysisResult` that `executeTrade` reads, passed to the
executor as rationals (the executor performs no square roots). -/
structure ExecInput where
  signalType : Signal
  zScore : ℚ
  corr : ℚ
  spread : ℚ
  mean : ℚ
  std : ℚ
  beta : ℚ
deriving DecidableEq

/-- `getOpenTrades` (executor.ts:666). -/
def getOpenTrades (tradeHistory : List TradeRecord) : List TradeRecord :=
  tradeHistory.filter fun t => t.status = some TradeStatus.opened

/-- `calculateKellySize` (executor.ts:201). -/
def calculateKellySize (winRate avgWin avgLoss : ℚ) (kellyFraction : ℚ := 0.25) : ℚ :=
  if winRate ≤ 0 ∨ 1 ≤ winRate then 0.1
  else if avgWin ≤ 0 then 0.1
  else if 0 ≤ avgLoss then 0.1
  else
    let p := winRate
    let q := 1 - p
    let b := avgWin / |avgLoss|
    let fullKelly := (p * b - q) / b
    let fractionalKelly := fullKelly * kellyFraction
    max 0 (min 0.5 fractionalKelly)

/-- `executeTrade` (executor.ts:289), as a function of the in-memory history.
Returns the new history and the record handed back to the caller.  The
database insert happens INSIDE the `try` block and the push to `tradeHistory`
comes after it, so on a failed insert (`dbOk = false`) the catch returns
`null` and the history is left untouched. -/
def executeTrade (tradeHistory : List TradeRecord) (symbolA symbolB : String)
    (result : ExecInput) (priceA priceB : ℚ) (timestamp : ℚ) (dbOk : Bool)
    (tradeId : Nat) : List TradeRecord × Option TradeRecord :=
  if result.signalType = Signal.neutral then (tradeHistory, none)
  else
    let longPrice : Option ℚ :=
      if result.signalType = Signal.long then some priceA
      else if result.signalType = Signal.short then some priceB else none
    let shortPrice : Option ℚ :=
      if result.signalType = Signal.long then some priceB
      else if result.signalType = Signal.short then some priceA else none
    let upnlPct : Option ℚ :=
      if longPrice ≠ none ∧ shortPrice ≠ none then some 0 else none
    if dbOk then
      let trade : TradeRecord :=
        { id := some tradeId
          timestamp := timestamp
          pair := symbolA ++ "/" ++ symbolB
          symbolA := symbolA
          symbolB := symbolB
          action := if result.signalType = Signal.long then TradeAction.long else TradeAction.short
          zScore := result.zScore
          correlation := result.corr
          spread := result.spread
          beta := result.beta
          reason := ""
          priceA := some priceA
          priceB := some priceB
          longPrice := longPrice
          shortPrice := shortPrice
          longAsset := some (if result.signalType = Signal.long then symbolA else symbolB)
          shortAsset := some (if result.signalType = Signal.long then symbolB else symbolA)
          upnlPct := upnlPct
          entryPriceA := some priceA
          entryPriceB := some priceB
          volatility := some result.std
          timeframe := some "1h"
          engine := some "pair-agent v1.0"
          remarks := some "-"
          status := some TradeStatus.opened }
      (tradeHistory ++ [trade], some trade)
    else (tradeHistory, none)

/-- `closeTrade` (executor.ts:526).  Already-closed trades return unchanged
(the early return).  The database update sits in a `try`/`catch` BEFORE the
local mutation, and a failure is only logged, so `dbOk` does not influence the
record; `closePnL` freezes `upnlPct ?? 0`. -/
def closeTrade (trade : TradeRecord) (reason : String) (closeTimestamp : ℚ)
    (_dbOk : Bool) : TradeRecord :=
  if trade.status = some TradeStatus.closed then trade
  else
    { trade with
      status := some TradeStatus.closed
      closeTimestamp := some closeTimestamp
      closeReason := some reason
      closePnL := some (trade.upnlPct.getD 0) }

/-- The body of the `updateUPnLForOpenTrades` loop (executor.ts:5-48) for one
trade: only open trades with both entry prices are touched; missing leg assets
skip; a current price equal to 0 skips ("invalid prices"); otherwise the pair
PnL `(longRet + shortRet) * 100` replaces `upnlPct`.  The database write
happens after the local mutation inside `try`/`catch`, so persistence cannot
undo it. -/
def updateUPnLTrade (getLatestPrice : String → ℚ) (trade : TradeRecord) : TradeRecord :=
  match trade.status, trade.longPrice, trade.shortPrice with
  | some TradeStatus.opened, some longPrice, some shortPrice =>
    match trade.longAsset, trade.shortAsset with
    | some longAsset, some shortAsset =>
      let currentLong := getLatestPrice longAsset
      let currentShort := getLatestPrice shortAsset
      if currentLong = 0 ∨ currentShort = 0 then trade
      else
        let longRet := (currentLong - longPrice) / longPrice
        let shortRet := (shortPrice - currentShort) / shortPrice
        { trade with upnlPct := some ((longRet + shortRet) * 100) }
    | _, _ => trade
  | _, _, _ => trade

/-- `updateUPnLForOpenTrades` (executor.ts:5) over the whole history.  The
`dbOk` flag of the per-trade `updateTradePnL` call is irrelevant to the
in-memory state (failure is caught after the mutation). -/
def updateUPnLForOpenTrades (getLatestPrice : String → ℚ)
    (tradeHistory : List TradeRecord) (_dbOk : Bool) : List TradeRecord :=
  tradeHistory.map (updateUPnLTrade getLatestPrice)

/-- `ExitConditions` (executor.ts:502). -/
structure ExitConditions where
  meanReversionThreshold : ℚ
  stopLossPct : ℚ
  takeProfitPct : ℚ
  maxHoldingPeriodMs : ℚ
deriving DecidableEq

/-- `DEFAULT_EXIT_CONDITIONS` (executor.ts:512). -/
def DEFAULT_EXIT_CONDITIONS : ExitConditions :=
  { meanReversionThreshold := 0.5
    stopLossPct := -3
    takeProfitPct := 6
    maxHoldingPeriodMs := 7 * 24 * 60 * 60 * 1000 }

/-- The PnL recomputed by `checkExitConditions` (executor.ts:600-607) from the
current prices of the two symbols. -/
def exitCheckPnL (trade : TradeRecord) (currentPriceA currentPriceB : ℚ) : ℚ :=
  let longPrice := trade.longPrice.getD 0
  let shortPrice := trade.shortPrice.getD 0
  let currentLong := if trade.action = TradeAction.long then currentPriceA else currentPriceB
  let currentShort := if trade.action = TradeAction.long then currentPriceB else currentPriceA
  let longRet := if 0 < longPrice then (currentLong - longPrice) / longPrice else 0
  let shortRet := if 0 < shortPrice then (shortPrice - currentShort) / shortPrice else 0
  (longRet + shortRet) * 100

/-- The four exit rules in source order (executor.ts:612-656). -/
inductive ExitRule where
  | stopLoss
  | takeProfit
  | maxHolding
  | meanReversion
deriving DecidableEq

/-- The reason string recorded for each rule (numeric interpolations elided). -/
def exitReasonText : ExitRule → String
  | ExitRule.stopLoss => "Stop-loss triggered"
  | ExitRule.takeProfit => "Take-profit triggered"
  | ExitRule.maxHolding => "Max holding period exceeded"
  | ExitRule.meanReversion => "Mean reversion complete"

/-- Which rule (if any) fires for a given PnL, holding time and fresh z-score:
the same cascade of conditions as the source, each later test only reached
when every earlier one failed. -/
def exitDecision (pnl holdingTime : ℚ) (z : Option ℚ) (c : ExitConditions) :
    Option ExitRule :=
  if pnl ≤ c.stopLossPct then some ExitRule.stopLoss
  else if c.takeProfitPct ≤ pnl then some ExitRule.takeProfit
  else if c.maxHoldingPeriodMs ≤ holdingTime then some ExitRule.maxHolding
  else
    match z with
    | some zv =>
      if |zv| ≤ c.meanReversionThreshold then some ExitRule.meanReversion else none
    | none => none

/-- The body of the `checkExitConditions` loop (executor.ts:582-660) for one
trade, written as the source's literal if-chain: skip when a price is 0,
update `upnlPct`, then stop-loss / take-profit / max-holding / mean-reversion,
each closing the trade and skipping the remaining checks (`continue`). -/
def checkExitTrade (getLatestPrice : String → ℚ) (currentZScore : Option ℚ)
    (now : ℚ) (conditions : ExitConditions) (trade : TradeRecord) : TradeRecord :=
  if trade.status = some TradeStatus.opened then
    let currentPriceA := getLatestPrice trade.symbolA
    let currentPriceB := getLatestPrice trade.symbolB
    if currentPriceA = 0 ∨ currentPriceB = 0 then trade
    else
      let currentPnLPct := exitCheckPnL trade currentPriceA currentPriceB
      let updated := { trade with upnlPct := some currentPnLPct }
      if currentPnLPct ≤ conditions.stopLossPct then
        closeTrade updated (exitReasonText ExitRule.stopLoss) now true
      else if conditions.takeProfitPct ≤ currentPnLPct then
        closeTrade updated (exitReasonText ExitRule.takeProfit) now true
      else if conditions.maxHoldingPeriodMs ≤ now - trade.timestamp then
        closeTrade updated (exitReasonText ExitRule.maxHolding) now true
      else
        match currentZScore with
        | some zv =>
          if |zv| ≤ conditions.meanReversionThreshold then
            closeTrade updated (exitReasonText ExitRule.meanReversion) now true
          else updated
        | none => updated
  else trade

/-- `checkExitConditions` over the whole history (the source loop iterates the
open trades; closed ones pass through untouched). -/
def checkExitConditions (getLatestPrice : String → ℚ)
    (getCurrentZScore : String → String → Option ℚ) (now : ℚ)
    (conditions : ExitConditions) (tradeHistory : List TradeRecord) :
    List TradeRecord :=
  tradeHistory.map fun t =>
    checkExitTrade getLatestPrice (getCurrentZScore t.symbolA t.symbolB) now conditions t

/-- The number of open trades sharing a leg symbol with the candidate pair
(index.ts `analyzeSinglePair`, the `correlatedCount` filter). -/
def correlatedCount (openTrades : List TradeRecord) (symbolA symbolB : String) : Nat :=
  (openTrades.filter fun t =>
    t.symbolA = symbolA ∨ t.symbolB = symbolB ∨ t.symbolA = symbolB ∨ t.symbolB = symbolA).length

/-- The risk-managed trade path of `analyzeSinglePair` (index.ts:143-181),
entered once a candidate pair qualified (`shouldTrade`): reject when the open
count reached `maxTrades`, then when the correlated count reached
`maxCorrelated`, otherwise hand over to `executeTrade`.  Returns the new
history and the boolean the function returns ("signal found"). -/
def analyzeSinglePairGate (tradeHistory : List TradeRecord)
    (symbolA symbolB : String) (maxTrades maxCorrelated : Nat)
    (result : ExecInput) (priceA priceB : ℚ) (timestamp : ℚ) (dbOk : Bool)
    (tradeId : Nat) : List TradeRecord × Bool :=
  let openTrades := getOpenTrades tradeHistory
  if maxTrades ≤ openTrades.length then (tradeHistory, false)
  else if maxCorrelated ≤ correlatedCount openTrades symbolA symbolB then (tradeHistory, false)
  else
    let execResult := executeTrade tradeHistory symbolA symbolB result priceA priceB timestamp dbOk tradeId
    (execResult.1, true)

/-! ### Concrete sample data used by the witnesses -/

/-- A closed sample position. -/
def sampleClosedTrade : TradeRecord :=
  { status := some TradeStatus.closed, upnlPct := some 2, closePnL := some 2 }

/-- An open sample position: long SOL at 100, short ETH at 50, stale PnL 5%. -/
def sampleOpenTrade : TradeRecord :=
  { timestamp := 0
    pair := "SOL/ETH"
    symbolA := "SOL"
    symbolB := "ETH"
    action := TradeAction.long
    longPrice := some 100
    shortPrice := some 50
    longAsset := some "SOL"
    shortAsset := some "ETH"
    upnlPct := some 5
    status := some TradeStatus.opened }

/-- Current prices: SOL fell to 97, everything else at 50. -/
def samplePriceFn : String → ℚ := fun s => if s = "SOL" then 97 else 50

/-- A price feed returning a negative (non-positive but nonzero) SOL price. -/
def negPriceFn : String → ℚ := fun s => if s = "SOL" then -1 else 50

/-- A long entry signal handed to `executeTrade`. -/
def sampleExecInput : ExecInput :=
  { signalType := Signal.long, zScore := -3, corr := 0.9, spread := 1, mean := 0,
    std := 1, beta := 1 }

/-! ## Theorems on the position ledger and risk gate -/

/-- Claim C8: for all inputs (any win rate, average win, average loss and
Kelly fraction, including degenerate and extreme values), `calculateKellySize`
returns a position-size fraction in the interval [0, 0.5]. -/
theorem calculateKellySize_bounded (winRate avgWin avgLoss kellyFraction : ℚ) :
    0 ≤ calculateKellySize winRate avgWin avgLoss kellyFraction ∧
    calculateKellySize winRate avgWin avgLoss kellyFraction ≤ 0.5 := by
  unfold calculateKellySize
  split_ifs with h1 h2 h3
  · norm_num
  · norm_num
  · norm_num
  · exact ⟨le_max_left 0 _, max_le (by norm_num) (min_le_left _ _)⟩

/-- Claim C4: a position's status only ever moves open → closed (`closeTrade`
always yields a closed record, mark-to-market never touches the status, the
exit check leaves closed positions alone), and closing an already-closed
position is a no-op that leaves `closePnL` and every other field unchanged;
closing twice equals closing once. -/
theorem closeTrade_one_way (t : TradeRecord) (r r2 : String) (ts ts2 : ℚ)
    (db db2 : Bool) :
    (closeTrade t r ts db).status = some TradeStatus.closed ∧
    (t.status = some TradeStatus.closed → closeTrade t r ts db = t) ∧
    closeTrade (closeTrade t r ts db) r2 ts2 db2 = closeTrade t r ts db ∧
    (∀ gp, (updateUPnLTrade gp t).status = t.status) ∧
    (∀ gp z now c, t.status = some TradeStatus.closed →
      checkExitTrade gp z now c t = t) := by
  refine ⟨?_, ?_, ?_, ?_, ?_⟩
  · by_cases hc : t.status = some TradeStatus.closed <;> simp [closeTrade, hc]
  · intro hc; simp [closeTrade, hc]
  · by_cases hc : t.status = some TradeStatus.closed <;> simp [closeTrade, hc]
  · intro gp
    unfold updateUPnLTrade
    split
    · split
      · dsimp only
        split <;> rfl
      · rfl
    · rfl
  · intro gp z now c hc
    simp [checkExitTrade, hc]

/-- Witness for C4 at a concrete closed position. -/
theorem closeTrade_one_way_witness :
    closeTrade sampleClosedTrade "again" 99 true = sampleClosedTrade ∧
    (closeTrade sampleClosedTrade "again" 99 true).status = some TradeStatus.closed :=
  ⟨(closeTrade_one_way sampleClosedTrade "again" "x" 99 100 true true).2.1 rfl,
   (closeTrade_one_way sampleClosedTrade "again" "x" 99 100 true true).1⟩

/-- Claim C3: on every exit check of an open position (with available prices),
the four rules are evaluated stop-loss, take-profit, max-holding,
mean-reversion in that fixed order, the first rule whose condition holds
closes the position, and later rules are not evaluated (each rule fires only
if every earlier condition failed). -/
theorem exit_rules_first_match :
    (∀ (pnl h : ℚ) (z : Option ℚ) (c : ExitConditions),
      (exitDecision pnl h z c = some ExitRule.stopLoss ↔ pnl ≤ c.stopLossPct) ∧
      (exitDecision pnl h z c = some ExitRule.takeProfit ↔
        ¬pnl ≤ c.stopLossPct ∧ c.takeProfitPct ≤ pnl) ∧
      (exitDecision pnl h z c = some ExitRule.maxHolding ↔
        ¬pnl ≤ c.stopLossPct ∧ ¬c.takeProfitPct ≤ pnl ∧ c.maxHoldingPeriodMs ≤ h) ∧
      (exitDecision pnl h z c = some ExitRule.meanReversion ↔
        ¬pnl ≤ c.stopLossPct ∧ ¬c.takeProfitPct ≤ pnl ∧ ¬c.maxHoldingPeriodMs ≤ h ∧
          ∃ zv, z = some zv ∧ |zv| ≤ c.meanReversionThreshold)) ∧
    (∀ gp z now c t, t.status = some TradeStatus.opened →
      gp t.symbolA ≠ 0 → gp t.symbolB ≠ 0 →
      checkExitTrade gp z now c t =
        match exitDecision (exitCheckPnL t (gp t.symbolA) (gp t.symbolB))
            (now - t.timestamp) z c with
        | some rule =>
          closeTrade { t with upnlPct := some (exitCheckPnL t (gp t.symbolA) (gp t.symbolB)) }
            (exitReasonText rule) now true
        | none => { t with upnlPct := some (exitCheckPnL t (gp t.symbolA) (gp t.symbolB)) }) := by
  constructor
  · intro pnl h z c
    rcases z with _ | zv <;>
      · unfold exitDecision
        split_ifs <;> simp_all
  · intro gp z now c t ht hA hB
    unfold checkExitTrade exitDecision
    rw [if_pos ht, if_neg (by simp [hA, hB])]
    dsimp only
    by_cases h1 : exitCheckPnL t (gp t.symbolA) (gp t.symbolB) ≤ c.stopLossPct
    · simp only [if_pos h1]
    · simp only [if_neg h1]
      by_cases h2 : c.takeProfitPct ≤ exitCheckPnL t (gp t.symbolA) (gp t.symbolB)
      · simp only [if_pos h2]
      · simp only [if_neg h2]
        by_cases h3 : c.maxHoldingPeriodMs ≤ now - t.timestamp
        · simp only [if_pos h3]
        · simp only [if_neg h3]
          rcases z with _ | zv
          · rfl
          · by_cases h4 : |zv| ≤ c.meanReversionThreshold
            · simp only [if_pos h4]
            · simp only [if_neg h4]

/-- Witness for C3: the stop-loss characterisation at PnL −6%, and the
exit-check equation at the sample open position under the sample prices. -/
theorem exit_rules_first_match_witness :
    (exitDecision (-6) 0 none DEFAULT_EXIT_CONDITIONS = some ExitRule.stopLoss ↔
      (-6 : ℚ) ≤ DEFAULT_EXIT_CONDITIONS.stopLossPct) ∧
    checkExitTrade samplePriceFn none 0 DEFAULT_EXIT_CONDITIONS sampleOpenTrade =
      match exitDecision
          (exitCheckPnL sampleOpenTrade (samplePriceFn sampleOpenTrade.symbolA)
            (samplePriceFn sampleOpenTrade.symbolB))
          (0 - sampleOpenTrade.timestamp) none DEFAULT_EXIT_CONDITIONS with
      | some rule =>
        closeTrade
          { sampleOpenTrade with
            upnlPct := some (exitCheckPnL sampleOpenTrade
              (samplePriceFn sampleOpenTrade.symbolA) (samplePriceFn sampleOpenTrade.symbolB)) }
          (exitReasonText rule) 0 true
      | none =>
        { sampleOpenTrade with
          upnlPct := some (exitCheckPnL sampleOpenTrade
            (samplePriceFn sampleOpenTrade.symbolA) (samplePriceFn sampleOpenTrade.symbolB)) } :=
  ⟨(exit_rules_first_match.1 (-6) 0 none DEFAULT_EXIT_CONDITIONS).1,
   exit_rules_first_match.2 samplePriceFn none 0 DEFAULT_EXIT_CONDITIONS sampleOpenTrade
     rfl (by decide) (by decide)⟩

/-- Claim C5: for a qualified candidate pair, no new position is opened when
the open count has reached `maxConcurrentPositions`, and independently none
when the correlated count has reached `maxCorrelatedPositions`; in both cases
the history (hence the open-position set) is unchanged. -/
theorem risk_limits_reject (tradeHistory : List TradeRecord)
    (symbolA symbolB : String) (maxTrades maxCorrelated : Nat)
    (result : ExecInput) (priceA priceB ts : ℚ) (dbOk : Bool) (tradeId : Nat) :
    (maxTrades ≤ (getOpenTrades tradeHistory).length →
      analyzeSinglePairGate tradeHistory symbolA symbolB maxTrades maxCorrelated
        result priceA priceB ts dbOk tradeId = (tradeHistory, false)) ∧
    (maxCorrelated ≤ correlatedCount (getOpenTrades tradeHistory) symbolA symbolB →
      analyzeSinglePairGate tradeHistory symbolA symbolB maxTrades maxCorrelated
        result priceA priceB ts dbOk tradeId = (tradeHistory, false)) := by
  constructor
  · intro h
    simp [analyzeSinglePairGate, h]
  · intro h
    unfold analyzeSinglePairGate
    dsimp only
    split_ifs <;> simp_all

/-- Witness for C5: with both limits set to 0, the gate rejects on an empty
history and leaves it unchanged. -/
theorem risk_limits_reject_witness :
    analyzeSinglePairGate [] "SOL" "ETH" 0 0 sampleExecInput 100 50 0 true 1 =
      ([], false) :=
  (risk_limits_reject [] "SOL" "ETH" 0 0 sampleExecInput 100 50 0 true 1).1
    (Nat.zero_le _)

/-- Counterexample to C6 as stated: a NEGATIVE (non-positive) current price is
not caught by the `=== 0` validation — the update is not skipped and the
stale PnL of 5% is overwritten with −101%. -/
theorem negative_price_update_not_skipped :
    negPriceFn "SOL" < 0 ∧
    (updateUPnLTrade negPriceFn sampleOpenTrade).upnlPct = some (-101) ∧
    sampleOpenTrade.upnlPct = some 5 := by
  have hES : ("ETH" : String) ≠ "SOL" := by decide
  refine ⟨by norm_num [negPriceFn], ?_, rfl⟩
  simp only [updateUPnLTrade, negPriceFn, sampleOpenTrade]
  norm_num [hES]

/-- Claim C6 (amended): the mark-to-market update of an open position is
skipped — without error, preserving the last-known PnL and every other field —
exactly when either current leg price equals 0 (the unavailable-price
sentinel); a negative or otherwise invalid nonzero price is not filtered. -/
theorem updateUPnL_skips_zero_price (gp : String → ℚ) (t : TradeRecord)
    (la sa : String) (hla : t.longAsset = some la) (hsa : t.shortAsset = some sa)
    (h0 : gp la = 0 ∨ gp sa = 0) :
    updateUPnLTrade gp t = t := by
  unfold updateUPnLTrade
  split
  · rw [hla, hsa]
    simp only []
    rw [if_pos h0]
  · rfl

/-- Witness for C6: a feed with every price 0 leaves the sample open position
untouched. -/
theorem updateUPnL_skips_zero_price_witness :
    updateUPnLTrade (fun _ => 0) sampleOpenTrade = sampleOpenTrade :=
  updateUPnL_skips_zero_price (fun _ => 0) sampleOpenTrade "SOL" "ETH" rfl rfl
    (Or.inl rfl)

/-- Counterexample to C7 as stated: for the OPENING mutation, a failed
persistence call does roll back — with `dbOk = false` the freshly opened
position is not visible in the in-memory list, while with `dbOk = true` it is. -/
theorem open_not_visible_on_db_failure :
    (executeTrade [] "SOL" "ETH" sampleExecInput 100 50 0 false 1).1 = [] ∧
    (executeTrade [] "SOL" "ETH" sampleExecInput 100 50 0 true 1).1 ≠ [] := by
  constructor
  · rfl
  · simp [executeTrade, sampleExecInput]

/-- Claim C7 (amended): for mark-to-market updates and closes the in-memory
mutation is independent of persistence success (the store call is caught and
only logged), but a failed insert while OPENING a position means the position
is never added to the in-memory list and the caller gets `null`. -/
theorem persistence_failure_keeps_memory :
    (∀ t r ts, closeTrade t r ts false = closeTrade t r ts true) ∧
    (∀ gp hist db db2,
      updateUPnLForOpenTrades gp hist db = updateUPnLForOpenTrades gp hist db2) ∧
    (∀ hist sA sB inp pA pB ts tid,
      executeTrade hist sA sB inp pA pB ts false tid = (hist, none)) := by
  refine ⟨fun t r ts => rfl, fun gp hist db db2 => rfl, fun hist sA sB inp pA pB ts tid => ?_⟩
  by_cases hn : inp.signalType = Signal.neutral <;> simp [executeTrade, hn]

/-! ## Helper lemmas for the analyzer -/

theorem calculateReturns_length : ∀ ps : List ℝ,
    (calculateReturns ps).length = ps.length - 1
  | [] => rfl
  | [_] => rfl
  | p0 :: p1 :: rest => by
    have ih := calculateReturns_length (p1 :: rest)
    simp [calculateReturns] at ih ⊢
    omega

theorem listMean_replicate {n : ℕ} (hn : n ≠ 0) (c : ℝ) :
    listMean (List.replicate n c) = c := by
  simp [listMean, List.sum_replicate, hn]

theorem devSq_replicate (n : ℕ) (c : ℝ) : devSq (List.replicate n c) = 0 := by
  rcases Nat.eq_zero_or_pos n with h | h
  · subst h; rfl
  · simp [devSq, List.map_replicate, List.sum_replicate,
      listMean_replicate (by omega : n ≠ 0)]

theorem getLastD_replicate : ∀ n : ℕ, n ≠ 0 → ∀ c d : ℝ,
    (List.replicate n c).getLastD d = c
  | 0, h => absurd rfl h
  | 1, _ => fun c d => rfl
  | n + 2, _ => fun c d => by
    rw [List.replicate_succ, List.getLastD_cons]
    exact getLastD_replicate (n + 1) (by omega) c c

theorem devSq_nonneg (xs : List ℝ) : 0 ≤ devSq xs := by
  apply List.sum_nonneg
  intro a ha
  simp only [List.mem_map] at ha
  obtain ⟨v, _, rfl⟩ := ha
  positivity

theorem sum_map_sq_nonneg (xs : List ℝ) : 0 ≤ (xs.map fun v => v ^ 2).sum := by
  apply List.sum_nonneg
  intro a ha
  simp only [List.mem_map] at ha
  obtain ⟨v, _, rfl⟩ := ha
  positivity

theorem cs_step (S A B a b : ℝ) (h : S ^ 2 ≤ A * B) (hA : 0 ≤ A) (hB : 0 ≤ B) :
    (a * b + S) ^ 2 ≤ (a ^ 2 + A) * (b ^ 2 + B) := by
  rcases eq_or_lt_of_le hA with hA0 | hA0
  · have h1 : S ^ 2 ≤ 0 := by nlinarith
    have hS : S = 0 := by
      have h2 : S ^ 2 = 0 := le_antisymm h1 (sq_nonneg S)
      exact (pow_eq_zero_iff (by norm_num)).mp h2
    subst hS
    nlinarith [mul_nonneg (sq_nonneg a) hB, sq_nonneg (a * b)]
  · nlinarith [sq_nonneg (A * b - a * S),
      mul_nonneg (by positivity : (0 : ℝ) ≤ a ^ 2 + A) (sub_nonneg.mpr h), hA0]

theorem list_cauchy_schwarz : ∀ x y : List ℝ,
    (((x.zip y).map fun p => p.1 * p.2).sum) ^ 2 ≤
      ((x.map fun v => v ^ 2).sum) * ((y.map fun v => v ^ 2).sum)
  | [], y => by simp
  | a :: xs, [] => by simp
  | a :: xs, b :: ys => by
    have ih := list_cauchy_schwarz xs ys
    simp only [List.zip_cons_cons, List.map_cons, List.sum_cons]
    exact cs_step _ _ _ a b ih (sum_map_sq_nonneg xs) (sum_map_sq_nonneg ys)

/-! ## Theorems on the analyzer -/

/-- Claim C9: for equal-length non-empty return series the Pearson correlation
lies in [-1, 1] when both series have nonzero variance, and equals 0 (a
defined value, not an error) when either variance vanishes. -/
theorem correlation_bounds (x y : List ℝ) (hlen : x.length = y.length)
    (hne : x.length ≠ 0) :
    ((populationVariance x = 0 ∨ populationVariance y = 0) → correlation x y = 0) ∧
    (populationVariance x ≠ 0 → populationVariance y ≠ 0 →
      -1 ≤ correlation x y ∧ correlation x y ≤ 1) := by
  have hx : ((x.length : ℝ)) ≠ 0 := Nat.cast_ne_zero.mpr hne
  have hy : ((y.length : ℝ)) ≠ 0 := by rw [← hlen]; exact hx
  have hvx : populationVariance x = 0 ↔ devSq x = 0 := by
    unfold populationVariance
    rw [div_eq_zero_iff]
    simp [hx]
  have hvy : populationVariance y = 0 ↔ devSq y = 0 := by
    unfold populationVariance
    rw [div_eq_zero_iff]
    simp [hy]
  constructor
  · intro h
    unfold correlation
    rw [if_neg (by push_neg; exact ⟨hlen, hne⟩), if_pos (h.imp hvx.mp hvy.mp)]
  · intro hdx hdy
    have hdx' : devSq x ≠ 0 := fun h => hdx (hvx.mpr h)
    have hdy' : devSq y ≠ 0 := fun h => hdy (hvy.mpr h)
    have hxpos : 0 < devSq x := lt_of_le_of_ne (devSq_nonneg x) (Ne.symm hdx')
    have hypos : 0 < devSq y := lt_of_le_of_ne (devSq_nonneg y) (Ne.symm hdy')
    unfold correlation
    rw [if_neg (by push_neg; exact ⟨hlen, hne⟩), if_neg (by simp [hdx', hdy'])]
    have hs : 0 < Real.sqrt (devSq x * devSq y) :=
      Real.sqrt_pos.mpr (mul_pos hxpos hypos)
    have hcs : (corrNumerator x y) ^ 2 ≤ devSq x * devSq y := by
      have h := list_cauchy_schwarz (x.map fun v => v - listMean x)
        (y.map fun v => v - listMean y)
      simpa [List.zip_map, List.map_map, Function.comp, devSq, corrNumerator,
        Prod.map] using h
    have habs : |corrNumerator x y| ≤ Real.sqrt (devSq x * devSq y) := by
      rw [← Real.sqrt_sq_eq_abs]
      exact Real.sqrt_le_sqrt hcs
    have h1 : |corrNumerator x y / Real.sqrt (devSq x * devSq y)| ≤ 1 := by
      rw [abs_div, abs_of_pos hs]
      exact (div_le_one hs).mpr habs
    exact abs_le.mp h1

/-- Witness for C9 at the series [0, 1] and [0, 1]. -/
theorem correlation_bounds_witness :
    -1 ≤ correlation [0, 1] [0, 1] ∧ correlation [0, 1] [0, 1] ≤ 1 :=
  (correlation_bounds [0, 1] [0, 1] rfl (by simp)).2
    (by norm_num [populationVariance, devSq, listMean])
    (by norm_num [populationVariance, devSq, listMean])

/-- Counterexample to C1 as stated: at prices A = [1, 2, 6], B = [1, 2, 3]
the source's beta (covariance divided by the squared-deviation sum of A's
returns, = -1/2) differs from the spec's formula (covariance divided by the
variance of B's returns, = -2). -/
theorem calculateBeta_ne_betaPerSpec :
    calculateBeta [1, 2, 6] [1, 2, 3] ≠ betaPerSpec [1, 2, 6] [1, 2, 3] := by
  have h1 : calculateBeta [1, 2, 6] [1, 2, 3] = -(1 / 2) := by
    norm_num [calculateBeta, calculateReturns, corrNumerator, devSq, listMean]
  have h2 : betaPerSpec [1, 2, 6] [1, 2, 3] = -2 := by
    norm_num [betaPerSpec, calculateReturns, populationCovariance,
      populationVariance, corrNumerator, devSq, listMean]
  rw [h1, h2]
  norm_num

/-- Claim C1 (amended): for equal-length price series with at least 2 points,
`calculateBeta` equals the covariance of the two return series divided by the
population variance of A's (not B's) returns, and equals 0 when A's return
variance is zero.  (When B's return variance is zero the covariance vanishes,
so the result is then 0 under either reading.) -/
theorem calculateBeta_eq_cov_div_varA (pricesA pricesB : List ℝ)
    (hlen : pricesA.length = pricesB.length) (h2 : 2 ≤ pricesA.length) :
    (populationVariance (calculateReturns pricesA) = 0 →
      calculateBeta pricesA pricesB = 0) ∧
    (populationVariance (calculateReturns pricesA) ≠ 0 →
      calculateBeta pricesA pricesB =
        populationCovariance (calculateReturns pricesA) (calculateReturns pricesB) /
          populationVariance (calculateReturns pricesA)) := by
  have hlenA : (calculateReturns pricesA).length = pricesA.length - 1 :=
    calculateReturns_length _
  have hnA : (((calculateReturns pricesA).length : ℝ)) ≠ 0 := by
    rw [hlenA]
    exact_mod_cast (by omega : pricesA.length - 1 ≠ 0)
  have hvar : populationVariance (calculateReturns pricesA) = 0 ↔
      devSq (calculateReturns pricesA) = 0 := by
    unfold populationVariance
    rw [div_eq_zero_iff]
    simp [hnA]
  have hguard : ¬(pricesA.length ≠ pricesB.length ∨ pricesA.length = 0) := by
    push_neg
    exact ⟨hlen, by omega⟩
  constructor
  · intro h
    unfold calculateBeta
    rw [if_neg hguard]
    dsimp only
    rw [if_pos (hvar.mp h)]
  · intro h
    have hd : devSq (calculateReturns pricesA) ≠ 0 := fun hh => h (hvar.mpr hh)
    unfold calculateBeta
    rw [if_neg hguard]
    dsimp only
    rw [if_neg hd]
    unfold populationCovariance populationVariance
    rw [div_div_div_cancel_right₀]
    exact hnA

/-- Witness for C1 at prices A = [1, 2, 6], B = [1, 2, 3] (nonzero variance
of A's returns). -/
theorem calculateBeta_eq_cov_div_varA_witness :
    calculateBeta [1, 2, 6] [1, 2, 3] =
      populationCovariance (calculateReturns [1, 2, 6]) (calculateReturns [1, 2, 3]) /
        populationVariance (calculateReturns [1, 2, 6]) :=
  (calculateBeta_eq_cov_div_varA [1, 2, 6] [1, 2, 3] rfl (by norm_num)).2
    (by norm_num [populationVariance, calculateReturns, devSq, listMean])

/-- Counterexample to C2 as stated: the input A = [1, 1], B = [1, 2] is valid
for `analyzePair`, its derived spread series is the constant [1, 1], and the
returned z-score is `NaN` (the source divides `0 / 0` with no guard), not a
defined sentinel. -/
theorem constant_spread_zscore_nan :
    spreadSeries [1, 1] [1, 2] = List.replicate 2 1 ∧
    (analyzePair [1, 1] [1, 2]).map (fun r => (r.std, r.zScore)) =
      some (0, JsNum.nan) := by
  have hbeta : calculateBeta [1, 1] [1, 2] = 0 := by
    norm_num [calculateBeta, calculateReturns, devSq, listMean]
  have hspread : calculateSpread [1, 1] [1, 2] (calculateBeta [1, 1] [1, 2]) =
      [1, 1] := by
    rw [hbeta]
    norm_num [calculateSpread]
  constructor
  · rw [spreadSeries, hspread]
    norm_num [List.replicate_succ]
  · unfold analyzePair
    rw [if_neg (by norm_num), if_neg (by norm_num)]
    simp only [Option.map_some', hspread]
    have hstd : stdUnbiased [(1 : ℝ), 1] = 0 := by
      norm_num [stdUnbiased, devSq, listMean]
    have hmean : listMean [(1 : ℝ), 1] = 1 := by norm_num [listMean]
    have hlast : ([(1 : ℝ), 1].getLastD 0) = 1 := rfl
    rw [hstd, hmean, hlast]
    norm_num [jsDiv]

/-- Claim C2 (amended): whenever `analyzePair` succeeds and the derived spread
series is constant, the returned spread standard deviation is 0 but the
returned z-score is `NaN` (the unguarded `0 / 0`), not a defined sentinel;
the `NaN` does not produce an entry signal downstream, because JavaScript
`NaN` comparisons are false and the signal stays `neutral`. -/
theorem analyzePair_constant_spread (pricesA pricesB : List ℝ)
    (hlen : pricesA.length = pricesB.length) (h2 : 2 ≤ pricesA.length) (c : ℝ)
    (hconst : spreadSeries pricesA pricesB = List.replicate pricesA.length c) :
    (analyzePair pricesA pricesB).map (fun r => (r.std, r.zScore, r.signalType)) =
      some (0, JsNum.nan, Signal.neutral) := by
  have hn : pricesA.length ≠ 0 := by omega
  have hconst' : calculateSpread pricesA pricesB (calculateBeta pricesA pricesB) =
      List.replicate pricesA.length c := hconst
  unfold analyzePair
  rw [if_neg (by simp [hlen]), if_neg (by omega)]
  simp only [Option.map_some', hconst']
  have hstd : stdUnbiased (List.replicate pricesA.length c) = 0 := by
    unfold stdUnbiased
    rw [devSq_replicate]
    simp
  have hmean : listMean (List.replicate pricesA.length c) = c :=
    listMean_replicate hn c
  have hlast : (List.replicate pricesA.length c).getLastD 0 = c :=
    getLastD_replicate _ hn c 0
  rw [hstd, hmean, hlast, sub_self]
  norm_num [jsDiv, signalOfZ]

/-- Witness for C2 at the valid constant-spread input A = [1, 1], B = [1, 2]. -/
theorem analyzePair_constant_spread_witness :
    (analyzePair [1, 1] [1, 2]).map (fun r => (r.std, r.zScore, r.signalType)) =
      some (0, JsNum.nan, Signal.neutral) :=
  analyzePair_constant_spread [1, 1] [1, 2] rfl (by norm_num) 1
    (by norm_num [spreadSeries, calculateSpread, calculateBeta, calculateReturns,
      devSq, listMean, List.replicate_succ])

/-- Claim C10: whenever the ADF regression is non-degenerate (≥ 10 points,
nonzero denominator and residual deviation), the pair is reported cointegrated
exactly when the pseudo t-statistic is below -3.43 (the 1% breakpoint); in the
band [-3.43, -2.86) the p-value is exactly 0.05, which fails the strict test
`p < 0.05`, so a spread passing only the conventional 5% critical value is not
cointegrated.  `analyzePair` publishes exactly this verdict for the derived
spread. -/
theorem adf_isCointegrated_iff (s : List ℝ) (h10 : 10 ≤ s.length)
    (hden : adfDenominator s ≠ 0) (hres : devSq (adfResiduals s) ≠ 0) :
    (isCointegratedOf (adfTest s) ↔ adfTStat s < -3.43) ∧
    (¬adfTStat s < -3.43 → adfTStat s < -2.86 →
      adfTest s = 0.05 ∧ ¬isCointegratedOf (adfTest s)) ∧
    (∀ pricesA pricesB : List ℝ, pricesA.length = pricesB.length →
      2 ≤ pricesA.length →
      ((analyzePair pricesA pricesB).map fun r => r.isCointegrated) =
        some (isCointegratedOf (adfTest (spreadSeries pricesA pricesB)))) := by
  have hreslen : (adfResiduals s).length = s.length - 1 := by
    simp [adfResiduals, adfCurrent, adfLagged]
  have hstd0 : adfResidualStd s ≠ 0 := by
    unfold adfResidualStd stdUnbiased
    intro h0
    rw [Real.sqrt_eq_zero'] at h0
    have hpos : (0 : ℝ) < ((adfResiduals s).length : ℝ) - 1 := by
      have h9 : (9 : ℝ) ≤ ((adfResiduals s).length : ℝ) := by
        exact_mod_cast (by omega : 9 ≤ (adfResiduals s).length)
      linarith
    have hle : devSq (adfResiduals s) ≤ 0 := by
      by_contra hgt
      push_neg at hgt
      exact absurd h0 (not_le.mpr (div_pos hgt hpos))
    exact hres (le_antisymm hle (devSq_nonneg _))
  have hform : adfTest s = pValueFromTStat (adfTStat s) := by
    unfold adfTest
    rw [if_neg (by omega), if_neg hden, if_neg hstd0]
  refine ⟨?_, ?_, ?_⟩
  · rw [hform]
    unfold pValueFromTStat isCointegratedOf
    split_ifs with h1 h2 h3 h4 h5 h6 h7 <;> norm_num <;> linarith
  · intro hnot hband
    rw [hform]
    unfold pValueFromTStat
    rw [if_neg hnot, if_pos hband]
    exact ⟨rfl, by norm_num [isCointegratedOf]⟩
  · intro pricesA pricesB hlen hp2
    unfold analyzePair
    rw [if_neg (by simp [hlen]), if_neg (by omega)]
    rfl

/-- Witness for C10 at the spread [0,1,0,1,0,1,0,1,0,2] (length 10, ADF
denominator 20/9, residual squared-deviation sum 4/5, both nonzero), plus the
`analyzePair` verdict at A = [1, 1], B = [1, 2]. -/
theorem adf_isCointegrated_iff_witness :
    (isCointegratedOf (adfTest [0, 1, 0, 1, 0, 1, 0, 1, 0, 2]) ↔
      adfTStat [0, 1, 0, 1, 0, 1, 0, 1, 0, 2] < -3.43) ∧
    ((analyzePair [1, 1] [1, 2]).map fun r => r.isCointegrated) =
      some (isCointegratedOf (adfTest (spreadSeries [1, 1] [1, 2]))) := by
  have h := adf_isCointegrated_iff [0, 1, 0, 1, 0, 1, 0, 1, 0, 2] (by norm_num)
    (by norm_num [adfDenominator, adfLagged, devSq, listMean])
    (by norm_num [adfResiduals, adfCurrent, adfLagged, adfAlpha, adfRho,
      adfNumerator, adfDenominator, corrNumerator, devSq, listMean])
  exact ⟨h.1, h.2.2 [1, 1] [1, 2] rfl (by norm_num)⟩

end PairAgent
